import Mathlib

/-!
Shallow embedding of the serial-transport bridge of
`react-native-serial-transport`:

* the Android native module `SerialPortModule`
  (src/android/src/main/java/com/serialportmodule/SerialPortModule.kt),
  the Port Session Coordinator: connect / write / read-drain / flush /
  disconnect over a mutable module state, with the platform USB registry
  and serial driver abstracted as an environment record;
* the TypeScript facade `SerialTransport` (src/SerialTransport.ts), which
  caches the connection flag, device name and baud rate and wraps the
  native promises;
* the inbound byte queue shared between the background read loop
  (producer) and the time-boxed read drains (consumers), modelled as an
  interleaved trace of enqueue / poll / clear steps.

Promise settlement is modelled by an explicit `Outcome` type: `resolve`
becomes a `resolved*` constructor, `reject(code, msg)` becomes
`rejected code msg`, and a promise that is stored for later (the pending
USB-permission promise) is `pending`.
-/

set_option autoImplicit false

/-- An attached USB device as seen by the Android `UsbManager` registry.
Nullable Android fields (`manufacturerName`, `productName`, `serialNumber`)
are `Option String`. -/
structure USBDevice where
  deviceName : String
  vendorId : Nat
  productId : Nat
  manufacturerName : Option String
  productName : Option String
  serialNumber : Option String
  deviceClass : Nat
  deviceSubclass : Nat
  deriving DecidableEq, Repr

/-- A value placed into a React Native bridge map (`WritableMap`). -/
inductive RVal where
  | s (v : String)
  | i (v : Nat)
  | b (v : Bool)
  deriving DecidableEq, Repr

/-- The connection result object resolved by the native `connect`
(`{connected, deviceName, baudRate}`), as received by the TypeScript side
(`ConnectionResult` in src/NativeSerialPort.ts, which also declares an
optional `error` field). -/
structure ConnectionResult where
  connected : Bool
  deviceName : Option String
  baudRate : Option Nat
  error : Option String
  deriving DecidableEq, Repr

/-- A rejected React Native promise carries an error code and a message;
`await` on such a promise raises it in JavaScript. -/
structure RNError where
  code : String
  message : String
  deriving DecidableEq, Repr

/-- Settlement of a native-module promise. `pending` models a promise that
the call stored for later settlement (the USB-permission flow) instead of
resolving or rejecting it before returning. -/
inductive Outcome where
  | resolvedConn (r : ConnectionResult)
  | resolvedInt (n : Nat)
  | resolvedBool (v : Bool)
  | rejected (code msg : String)
  | pending
  deriving DecidableEq, Repr

/-- Mutable state of the Kotlin `SerialPortModule`: the connected flag, the
open serial port handle (`Option`, with the handle itself abstracted to a
number), the inbound byte queue `readBuffer` of signed JVM bytes, the
stored pending permission promise (abstracted to a promise identifier),
and whether the background read job is running. -/
structure SerialPortModule where
  isConnected : Bool
  serialPort : Option Nat
  readBuffer : List Int
  permissionPromise : Option Nat
  readJobActive : Bool
  deriving DecidableEq, Repr

/-- The module state a fresh `SerialPortModule` starts in. -/
def SerialPortModule.initial : SerialPortModule :=
  { isConnected := false, serialPort := none, readBuffer := []
    permissionPromise := none, readJobActive := false }

/-- The platform USB registry and serial driver the module delegates to:
the attached-device snapshot, per-device-name access permission, and the
success of the driver probe, of opening the device handle, of a port
write, and of closing the port. -/
structure UsbEnv where
  deviceList : List USBDevice
  hasPermission : String → Bool
  probeOk : Bool
  openOk : Bool
  writeOk : Bool
  closeOk : Bool

/-- The vendor-id filter of `connect`'s automatic device selection:
CP210x (0x10C4), CH340 (0x1A86), FTDI (0x0403). -/
def knownVendor (v : Nat) : Bool :=
  v == 0x10C4 || v == 0x1A86 || v == 0x0403

/-- Device selection of `connect` (SerialPortModule.kt lines 150-159):
an explicit `deviceName` selects the exact match, otherwise the first
device whose vendor id passes `knownVendor`. -/
def selectDevice (deviceList : List USBDevice) (deviceName : Option String) :
    Option USBDevice :=
  match deviceName with
  | some n => deviceList.find? (fun d => d.deviceName == n)
  | none => deviceList.find? (fun d => knownVendor d.vendorId)

/-- `openDeviceInternal` (SerialPortModule.kt lines 196-245): probe a
driver, open the device handle, open port 0, apply parameters, raise
DTR/RTS, mark connected, start the read job, and resolve
`{connected, deviceName, baudRate}`.  Driver probe failure rejects
`NO_DRIVER`; a failed `openDevice` rejects `OPEN_FAILED`. The port
open/parameter calls are modelled as succeeding once the handle is open. -/
def openDeviceInternal (env : UsbEnv) (self : SerialPortModule)
    (device : USBDevice) (baudRate : Nat) : SerialPortModule × Outcome :=
  if !env.probeOk then
    (self, .rejected "NO_DRIVER" "No driver found for device")
  else if !env.openOk then
    (self, .rejected "OPEN_FAILED" "Failed to open device connection")
  else
    ({ self with serialPort := some 0, isConnected := true, readJobActive := true },
     .resolvedConn { connected := true, deviceName := some device.deviceName
                     baudRate := some baudRate, error := none })

/-- `connect` (SerialPortModule.kt lines 136-175): reject
`ALREADY_CONNECTED` when a session is open; select a device (rejecting
`NO_DEVICE` when none matches); with permission held, open the device;
otherwise store the promise in `permissionPromise` (overwriting whatever
was there) and return with the promise pending.  `p` is the identifier of
the promise passed to this call. -/
def SerialPortModule.connect (env : UsbEnv) (self : SerialPortModule)
    (deviceName : Option String) (baudRate : Nat) (p : Nat) :
    SerialPortModule × Outcome :=
  if self.isConnected then
    (self, .rejected "ALREADY_CONNECTED" "Already connected to a device")
  else
    match selectDevice env.deviceList deviceName with
    | none => (self, .rejected "NO_DEVICE" "No compatible USB device found")
    | some d =>
      if env.hasPermission d.deviceName then
        openDeviceInternal env self d baudRate
      else
        ({ self with permissionPromise := some p }, .pending)

/-- `write` (SerialPortModule.kt lines 247-266): reject `NOT_CONNECTED`
when no session is open, otherwise hand the buffer to the port with a
1000 ms bound and resolve the buffer size; a port-level failure rejects
`WRITE_ERROR`. -/
def SerialPortModule.write (env : UsbEnv) (self : SerialPortModule)
    (data : List Int) : SerialPortModule × Outcome :=
  if !self.isConnected || self.serialPort.isNone then
    (self, .rejected "NOT_CONNECTED" "Device not connected")
  else if env.writeOk then
    (self, .resolvedInt data.length)
  else
    (self, .rejected "WRITE_ERROR" "Write failed")

/-- `flush` (SerialPortModule.kt lines 341-345): clear the inbound queue
and resolve `true`. -/
def SerialPortModule.flush (self : SerialPortModule) :
    SerialPortModule × Outcome :=
  ({ self with readBuffer := [] }, .resolvedBool true)

/-- `disconnect` (SerialPortModule.kt lines 347-359): cancel the read job,
close the port, drop the handle, clear the connected flag and the queue,
resolve `true`.  When the close of an open port fails, the `catch` rejects
`DISCONNECT_ERROR` with only the job cancellation having taken effect. -/
def SerialPortModule.disconnect (env : UsbEnv) (self : SerialPortModule) :
    SerialPortModule × Outcome :=
  if !self.serialPort.isNone && !env.closeOk then
    ({ self with readJobActive := false },
     .rejected "DISCONNECT_ERROR" "close failed")
  else
    ({ isConnected := false, serialPort := none, readBuffer := []
       permissionPromise := self.permissionPromise, readJobActive := false },
     .resolvedBool true)

/-- The masking `byte.toInt() and 0xFF` applied to each dequeued byte in
`read` (SerialPortModule.kt line 283): sign-extending an 8-bit JVM byte
and keeping the low 8 bits is the nonnegative remainder modulo 256
(`Int.emod`). -/
def maskByte (b : Int) : Int := b % 256

/-- The per-device descriptor map built by `listDevices`
(SerialPortModule.kt lines 117-126), in insertion order. -/
def deviceInfo (d : USBDevice) : List (String × RVal) :=
  [("deviceName", .s d.deviceName),
   ("vendorId", .i d.vendorId),
   ("productId", .i d.productId),
   ("manufacturer", .s (d.manufacturerName.getD "Unknown")),
   ("product", .s (d.productName.getD "Unknown")),
   ("serialNumber", .s (d.serialNumber.getD "")),
   ("deviceClass", .i d.deviceClass),
   ("deviceSubclass", .i d.deviceSubclass)]

/-- The fields of the `USBDevice` interface this package declares for the
entries of the `listDevices` result (src/NativeSerialPort.ts lines 20-30
and the bundled type declaration file). -/
def declaredUSBDeviceKeys : List String :=
  ["deviceName", "vendorId", "productId", "manufacturerName", "productName",
   "serialNumber", "deviceClass", "deviceSubclass", "portCount"]

/-- Cached state of the TypeScript `SerialTransport` facade
(src/SerialTransport.ts): the connected flag, device name and baud rate
it tracks locally. -/
structure SerialTransport where
  connected : Bool
  deviceName : Option String
  baudRate : Option Nat
  deriving DecidableEq, Repr

/-- The facade state a fresh `new SerialTransport()` starts in. -/
def SerialTransport.initial : SerialTransport :=
  { connected := false, deviceName := none, baudRate := none }

/-- The template string the facade returns on a successful connect:
`Connected to <deviceName> at <baudRate> band`. -/
def connectedMessage (name : Option String) (baud : Option Nat) : String :=
  "Connected to " ++ name.getD "undefined" ++ " at " ++
    (match baud with
     | some b => toString b
     | none => "undefined") ++ " band"

/-- Settlement of the native `connect` promise as observed by the awaiting
JavaScript caller: a resolution delivers the `ConnectionResult`, a
rejection raises the error, and a promise left pending never settles. -/
def settleConnect (o : Outcome) : Option (Except RNError ConnectionResult) :=
  match o with
  | .resolvedConn r => some (.ok r)
  | .rejected c m => some (.error { code := c, message := m })
  | _ => none

/-- `SerialTransport.connect` (src/SerialTransport.ts lines 12-26): await
the native connect — there is no try/catch, so a rejection propagates as
`.error` — then cache the connected flag and, when connected, the device
name and baud rate, and return a status string. -/
def SerialTransport.connect (self : SerialTransport)
    (native : Except RNError ConnectionResult) :
    Except RNError (SerialTransport × String) :=
  match native with
  | .error e => .error e
  | .ok result =>
    let s1 : SerialTransport := { self with connected := result.connected }
    let s2 : SerialTransport :=
      if s1.connected then
        { s1 with deviceName := result.deviceName, baudRate := result.baudRate }
      else s1
    .ok (s2,
      if s2.connected then connectedMessage s2.deviceName s2.baudRate
      else "Failed to connect: " ++ (result.error.getD "Unknown error"))

/-- `SerialTransport.write` (src/SerialTransport.ts lines 28-36): throw
`Not connected to any device` when the cached flag is off, otherwise
delegate to the native write. -/
def SerialTransport.write (self : SerialTransport) (data : List Int)
    (native : List Int → Except RNError Nat) : Except RNError Nat :=
  if !self.connected then
    .error { code := "Error", message := "Not connected to any device" }
  else native data

/-- `SerialTransport.read` (src/SerialTransport.ts lines 38-47): the async
generator throws when disconnected, performs one native drain and yields
one chunk when the drain is nonempty, nothing otherwise.  The result is
the list of yielded chunks; `drain` is the byte list the single native
`read(timeout)` resolved. -/
def SerialTransport.read (self : SerialTransport) (drain : List Int) :
    Except RNError (List (List Int)) :=
  if !self.connected then
    .error { code := "Error", message := "Not connected to any device" }
  else
    .ok (if drain.length > 0 then [drain] else [])

/-- `SerialTransport.rawRead` (src/SerialTransport.ts lines 49-56): throws
when disconnected, otherwise returns the bytes of the same single native
drain as one value. -/
def SerialTransport.rawRead (self : SerialTransport) (drain : List Int) :
    Except RNError (List Int) :=
  if !self.connected then
    .error { code := "Error", message := "Not connected to any device" }
  else
    .ok drain

/-- One interaction step on the inbound byte queue: `arrive b` is the
background read loop offering one received byte (`readBuffer.offer`,
SerialPortModule.kt line 371), `poll` is one iteration of a read drain
polling the head (line 281; a miss just delays), and `flushQ` is `flush`
clearing the queue. -/
inductive QStep where
  | arrive (b : Int)
  | poll
  | flushQ
  deriving DecidableEq, Repr

/-- Queue-trace state: the current queue contents (signed bytes, arrival
order) and the masked bytes delivered to readers so far, in delivery
order. -/
structure QState where
  queue : List Int
  delivered : List Int
  deriving DecidableEq, Repr

/-- Effect of one `QStep` on the queue state: an arrival enqueues at the
tail, a successful poll dequeues the head and delivers it masked, a poll
of an empty queue delivers nothing, and a flush clears the queue. -/
def qstep (s : QState) : QStep → QState
  | .arrive b => { s with queue := s.queue ++ [b] }
  | .poll =>
    match s.queue with
    | [] => s
    | b :: rest => { queue := rest, delivered := s.delivered ++ [maskByte b] }
  | .flushQ => { s with queue := [] }

/-- Run a trace of queue steps from a state. -/
def runQ (steps : List QStep) (s : QState) : QState :=
  steps.foldl qstep s

/-- The bytes the read loop pushed during a trace, in arrival order. -/
def arrivalsOf (steps : List QStep) : List Int :=
  steps.filterMap (fun st =>
    match st with
    | .arrive b => some b
    | _ => none)

/-- Whether a trace contains no `flush`. -/
def noFlush (steps : List QStep) : Bool :=
  steps.all (fun st =>
    match st with
    | .flushQ => false
    | _ => true)

/-- The polling loop inside `read` (SerialPortModule.kt lines 280-287)
over a queue with no concurrent arrivals: each remaining time tick either
dequeues and masks the head byte or idles on an empty queue; when the
window elapses it returns the accumulated bytes and the remaining
queue. -/
def drainRead : Nat → List Int → List Int → List Int × List Int
  | 0, q, acc => (acc, q)
  | Nat.succ n, q, acc =>
    match q with
    | [] => drainRead n [] acc
    | b :: rest => drainRead n rest (acc ++ [maskByte b])

/-- A registry with no attached devices. -/
def emptyEnv : UsbEnv :=
  { deviceList := [], hasPermission := fun _ => false
    probeOk := true, openOk := true, writeOk := true, closeOk := true }

/-- A CP210x device at `/dev/bus/usb/001/002`. -/
def cp210x : USBDevice :=
  { deviceName := "/dev/bus/usb/001/002", vendorId := 0x10C4, productId := 60000
    manufacturerName := some "Silicon Labs", productName := some "CP2102"
    serialNumber := some "0001", deviceClass := 0, deviceSubclass := 0 }

/-- A registry with one CP210x attached and access permission granted. -/
def grantedEnv : UsbEnv :=
  { deviceList := [cp210x], hasPermission := fun _ => true
    probeOk := true, openOk := true, writeOk := true, closeOk := true }

/-- The same registry with access permission not yet granted. -/
def ungrantedEnv : UsbEnv :=
  { deviceList := [cp210x], hasPermission := fun _ => false
    probeOk := true, openOk := true, writeOk := true, closeOk := true }

/-- A module state with a permission request already pending (stored
promise 1) and no session open. -/
def pendingState : SerialPortModule :=
  { isConnected := false, serialPort := none, readBuffer := []
    permissionPromise := some 1, readJobActive := false }

theorem find?_split {α : Type} (p : α → Bool) :
    ∀ (l : List α) (a : α), l.find? p = some a →
      ∃ l1 l2, l = l1 ++ a :: l2 ∧ p a = true ∧ ∀ x ∈ l1, p x = false := by
  intro l
  induction l with
  | nil => intro a h; simp at h
  | cons b t ih =>
    intro a h
    cases hb : p b with
    | true =>
      rw [List.find?_cons_of_pos _ hb] at h
      injection h with h
      subst h
      exact ⟨[], t, rfl, hb, by intro x hx; simp at hx⟩
    | false =>
      rw [List.find?_cons_of_neg _ (by simp [hb])] at h
      obtain ⟨l1, l2, hsplit, hpa, hfst⟩ := ih a h
      refine ⟨b :: l1, l2, by rw [hsplit]; rfl, hpa, ?_⟩
      intro x hx
      rcases List.mem_cons.mp hx with rfl | hx2
      · exact hb
      · exact hfst x hx2

theorem maskByte_range (b : Int) : 0 ≤ maskByte b ∧ maskByte b ≤ 255 := by
  unfold maskByte
  constructor
  · exact Int.emod_nonneg b (by norm_num)
  · have h := Int.emod_lt_of_pos b (show (0:Int) < 256 by norm_num)
    omega

theorem runQ_nil (s : QState) : runQ [] s = s := rfl

theorem runQ_cons (st : QStep) (rest : List QStep) (s : QState) :
    runQ (st :: rest) s = runQ rest (qstep s st) := rfl

theorem arrivalsOf_arrive (b : Int) (rest : List QStep) :
    arrivalsOf (QStep.arrive b :: rest) = b :: arrivalsOf rest := rfl

theorem arrivalsOf_poll (rest : List QStep) :
    arrivalsOf (QStep.poll :: rest) = arrivalsOf rest := rfl

theorem noFlush_cons (st : QStep) (rest : List QStep) :
    noFlush (st :: rest) =
      ((match st with | QStep.flushQ => false | _ => true) && noFlush rest) := by
  simp [noFlush]

theorem runQ_conservation : ∀ (steps : List QStep) (s : QState),
    noFlush steps = true →
    (runQ steps s).delivered ++ (runQ steps s).queue.map maskByte =
      s.delivered ++ s.queue.map maskByte ++ (arrivalsOf steps).map maskByte := by
  intro steps
  induction steps with
  | nil => intro s _; simp [runQ, arrivalsOf]
  | cons st rest ih =>
    intro s h
    rw [noFlush_cons, Bool.and_eq_true] at h
    obtain ⟨hst, hrest⟩ := h
    cases st with
    | arrive b =>
      rw [runQ_cons, arrivalsOf_arrive]
      have := ih { s with queue := s.queue ++ [b] } hrest
      simp only [qstep]
      rw [this]
      simp [List.append_assoc]
    | poll =>
      rw [runQ_cons, arrivalsOf_poll]
      cases hq : s.queue with
      | nil =>
        have := ih s hrest
        simp only [qstep, hq]
        rw [this, hq]
      | cons b q2 =>
        have := ih { queue := q2, delivered := s.delivered ++ [maskByte b] } hrest
        simp only [qstep, hq]
        rw [this]
        simp [List.append_assoc]
    | flushQ => simp at hst

theorem runQ_delivered_range : ∀ (steps : List QStep) (s : QState),
    (∀ x ∈ s.delivered, 0 ≤ x ∧ x ≤ 255) →
    ∀ x ∈ (runQ steps s).delivered, 0 ≤ x ∧ x ≤ 255 := by
  intro steps
  induction steps with
  | nil => intro s h; simpa [runQ] using h
  | cons st rest ih =>
    intro s h
    rw [runQ_cons]
    apply ih
    cases st with
    | arrive b => simpa [qstep] using h
    | flushQ => simpa [qstep] using h
    | poll =>
      cases hq : s.queue with
      | nil => simpa [qstep, hq] using h
      | cons b q2 =>
        intro x hx
        simp only [qstep, hq] at hx
        rcases List.mem_append.mp hx with hx1 | hx2
        · exact h x hx1
        · have : x = maskByte b := by simpa using hx2
          rw [this]
          exact maskByte_range b

theorem connect_resolved_state (env : UsbEnv) (self nst : SerialPortModule)
    (deviceName : Option String) (baudRate p : Nat) (r : ConnectionResult)
    (h : SerialPortModule.connect env self deviceName baudRate p =
      (nst, .resolvedConn r)) :
    nst.isConnected = true ∧ nst.serialPort = some 0 := by
  unfold SerialPortModule.connect openDeviceInternal at h
  split at h
  · simp at h
  · split at h
    · simp at h
    · split at h
      · split at h
        · simp at h
        · split at h
          · simp at h
          · rw [Prod.mk.injEq] at h
            obtain ⟨h1, _⟩ := h
            rw [← h1]
            exact ⟨rfl, rfl⟩
      · simp at h

/-- C3: for every interleaving of read-loop arrivals and drain polls with
no flush, the masked bytes delivered to readers followed by the masked
bytes still queued are exactly the masked arrivals in arrival order — so
successive drains observe the bytes in the order received, each byte at
most once, and no byte is lost except by an explicit flush; and a drain
whose window passes over an empty queue returns the empty result. -/
theorem queue_order_exactly_once (steps : List QStep)
    (h : noFlush steps = true) :
    ((runQ steps { queue := [], delivered := [] }).delivered ++
      (runQ steps { queue := [], delivered := [] }).queue.map maskByte =
      (arrivalsOf steps).map maskByte) ∧
    ∀ n : Nat, drainRead n [] [] = ([], []) := by
  constructor
  · have hc := runQ_conservation steps { queue := [], delivered := [] } h
    simpa using hc
  · intro n
    induction n with
    | zero => rfl
    | succ m ih => simpa [drainRead] using ih

theorem queue_order_exactly_once_witness :
    noFlush [QStep.arrive 65, QStep.poll, QStep.arrive (-1), QStep.poll] = true ∧
    (((runQ [QStep.arrive 65, QStep.poll, QStep.arrive (-1), QStep.poll]
          { queue := [], delivered := [] }).delivered ++
        (runQ [QStep.arrive 65, QStep.poll, QStep.arrive (-1), QStep.poll]
          { queue := [], delivered := [] }).queue.map maskByte =
        (arrivalsOf [QStep.arrive 65, QStep.poll, QStep.arrive (-1), QStep.poll]).map
          maskByte) ∧
      ∀ n : Nat, drainRead n [] [] = ([], [])) :=
  ⟨by decide,
   queue_order_exactly_once [QStep.arrive 65, QStep.poll, QStep.arrive (-1), QStep.poll]
     (by decide)⟩

/-- C10: every byte value the read drain delivers out of the queue is the
dequeued signed byte masked with 0xFF, hence an integer between 0 and 255;
callers never observe a negative value. -/
theorem read_bytes_masked_range (steps : List QStep) (x : Int)
    (hx : x ∈ (runQ steps { queue := [], delivered := [] }).delivered) :
    0 ≤ x ∧ x ≤ 255 :=
  runQ_delivered_range steps { queue := [], delivered := [] }
    (by intro y hy; exact absurd hy (List.not_mem_nil y)) x hx

theorem read_bytes_masked_range_witness :
    ((255 : Int) ∈
      (runQ [QStep.arrive (-1), QStep.poll] { queue := [], delivered := [] }).delivered) ∧
    (0 ≤ (255 : Int) ∧ (255 : Int) ≤ 255) :=
  ⟨by decide, read_bytes_masked_range [QStep.arrive (-1), QStep.poll] 255 (by decide)⟩

/-- C5: a `connect` call in any state whose session is already open is
rejected with `ALREADY_CONNECTED` and leaves the module state — connected
flag, open port, queue contents, stored promise — unchanged. -/
theorem connect_already_connected (env : UsbEnv) (self : SerialPortModule)
    (deviceName : Option String) (baudRate p : Nat)
    (h : self.isConnected = true) :
    SerialPortModule.connect env self deviceName baudRate p =
      (self, .rejected "ALREADY_CONNECTED" "Already connected to a device") := by
  simp [SerialPortModule.connect, h]

theorem connect_already_connected_witness :
    ({ isConnected := true, serialPort := some 0, readBuffer := [3, -7]
       permissionPromise := none, readJobActive := true } : SerialPortModule).isConnected
      = true ∧
    SerialPortModule.connect grantedEnv
      { isConnected := true, serialPort := some 0, readBuffer := [3, -7]
        permissionPromise := none, readJobActive := true } none 115200 9 =
      ({ isConnected := true, serialPort := some 0, readBuffer := [3, -7]
         permissionPromise := none, readJobActive := true },
       .rejected "ALREADY_CONNECTED" "Already connected to a device") :=
  ⟨rfl,
   connect_already_connected grantedEnv
     { isConnected := true, serialPort := some 0, readBuffer := [3, -7]
       permissionPromise := none, readJobActive := true } none 115200 9 rfl⟩

/-- C7: `disconnect` is idempotent: with no open port it is a harmless
success that leaves the state `Disconnected`; and (with the driver close
succeeding) a first `disconnect` resolves `true` and a second `disconnect`
right after it succeeds as a no-op, leaving the same disconnected state
with the queue empty. -/
theorem disconnect_idempotent (env : UsbEnv) (self : SerialPortModule)
    (h : env.closeOk = true) :
    (self.serialPort = none →
      SerialPortModule.disconnect env self =
        ({ isConnected := false, serialPort := none, readBuffer := []
           permissionPromise := self.permissionPromise, readJobActive := false },
         .resolvedBool true)) ∧
    (SerialPortModule.disconnect env self).2 = .resolvedBool true ∧
    SerialPortModule.disconnect env (SerialPortModule.disconnect env self).1 =
      ((SerialPortModule.disconnect env self).1, .resolvedBool true) ∧
    (SerialPortModule.disconnect env self).1.isConnected = false ∧
    (SerialPortModule.disconnect env self).1.serialPort = none ∧
    (SerialPortModule.disconnect env self).1.readBuffer = [] := by
  unfold SerialPortModule.disconnect
  simp [h]

theorem disconnect_idempotent_witness :
    grantedEnv.closeOk = true ∧
    ((({ isConnected := true, serialPort := some 0, readBuffer := [1, 2]
         permissionPromise := none, readJobActive := true } : SerialPortModule).serialPort
        = none →
      SerialPortModule.disconnect grantedEnv
        { isConnected := true, serialPort := some 0, readBuffer := [1, 2]
          permissionPromise := none, readJobActive := true } =
        ({ isConnected := false, serialPort := none, readBuffer := []
           permissionPromise := none, readJobActive := false },
         .resolvedBool true)) ∧
    (SerialPortModule.disconnect grantedEnv
        { isConnected := true, serialPort := some 0, readBuffer := [1, 2]
          permissionPromise := none, readJobActive := true }).2 = .resolvedBool true ∧
    SerialPortModule.disconnect grantedEnv
        (SerialPortModule.disconnect grantedEnv
          { isConnected := true, serialPort := some 0, readBuffer := [1, 2]
            permissionPromise := none, readJobActive := true }).1 =
      ((SerialPortModule.disconnect grantedEnv
          { isConnected := true, serialPort := some 0, readBuffer := [1, 2]
            permissionPromise := none, readJobActive := true }).1, .resolvedBool true) ∧
    (SerialPortModule.disconnect grantedEnv
        { isConnected := true, serialPort := some 0, readBuffer := [1, 2]
          permissionPromise := none, readJobActive := true }).1.isConnected = false ∧
    (SerialPortModule.disconnect grantedEnv
        { isConnected := true, serialPort := some 0, readBuffer := [1, 2]
          permissionPromise := none, readJobActive := true }).1.serialPort = none ∧
    (SerialPortModule.disconnect grantedEnv
        { isConnected := true, serialPort := some 0, readBuffer := [1, 2]
          permissionPromise := none, readJobActive := true }).1.readBuffer = []) :=
  ⟨rfl,
   disconnect_idempotent grantedEnv
     { isConnected := true, serialPort := some 0, readBuffer := [1, 2]
       permissionPromise := none, readJobActive := true } rfl⟩

/-- C8: on a connected facade, the `read` generator performs one drain and
yields at most one chunk — nothing (no zero-length chunk) when the drain
is empty — and `rawRead` over the same drain returns exactly the
concatenation of the chunks `read` yields, as one possibly empty value. -/
theorem read_rawRead_refinement (self : SerialTransport) (drain : List Int)
    (h : self.connected = true) :
    ∃ chunks : List (List Int),
      SerialTransport.read self drain = .ok chunks ∧
      chunks.length ≤ 1 ∧
      (drain = [] → chunks = []) ∧
      (∀ c ∈ chunks, 0 < c.length) ∧
      SerialTransport.rawRead self drain = .ok chunks.flatten ∧
      chunks.flatten = drain := by
  refine ⟨if drain.length > 0 then [drain] else [], ?_, ?_, ?_, ?_, ?_, ?_⟩
  · simp [SerialTransport.read, h]
  · cases drain <;> simp
  · intro hd; subst hd; simp
  · intro c hc
    cases drain with
    | nil => simp at hc
    | cons b t =>
      simp at hc
      subst hc
      simp
  · cases drain <;> simp [SerialTransport.rawRead, h]
  · cases drain <;> simp

theorem read_rawRead_refinement_witness :
    ({ connected := true, deviceName := some "/dev/bus/usb/001/002"
       baudRate := some 115200 } : SerialTransport).connected = true ∧
    ∃ chunks : List (List Int),
      SerialTransport.read
        { connected := true, deviceName := some "/dev/bus/usb/001/002"
          baudRate := some 115200 } [104, 105] = .ok chunks ∧
      chunks.length ≤ 1 ∧
      (([104, 105] : List Int) = [] → chunks = []) ∧
      (∀ c ∈ chunks, 0 < c.length) ∧
      SerialTransport.rawRead
        { connected := true, deviceName := some "/dev/bus/usb/001/002"
          baudRate := some 115200 } [104, 105] = .ok chunks.flatten ∧
      chunks.flatten = [104, 105] :=
  ⟨rfl,
   read_rawRead_refinement
     { connected := true, deviceName := some "/dev/bus/usb/001/002"
       baudRate := some 115200 } [104, 105] rfl⟩

/-- C9: the descriptor map `listDevices` builds for a device carries only
the keys deviceName, vendorId, productId, manufacturer, product,
serialNumber, deviceClass and deviceSubclass — it never contains the
portCount entry that the package's own declared `USBDevice` interface
requires of every enumeration result. -/
theorem listDevices_portCount_missing (d : USBDevice) :
    (deviceInfo d).map Prod.fst =
      ["deviceName", "vendorId", "productId", "manufacturer", "product",
       "serialNumber", "deviceClass", "deviceSubclass"] ∧
    ((deviceInfo d).map Prod.fst).contains "portCount" = false ∧
    declaredUSBDeviceKeys.contains "portCount" = true := by
  have hk : (deviceInfo d).map Prod.fst =
      ["deviceName", "vendorId", "productId", "manufacturer", "product",
       "serialNumber", "deviceClass", "deviceSubclass"] := rfl
  refine ⟨hk, ?_, by decide⟩
  rw [hk]
  decide

/-- The module state right after a successful auto-select connect from the
initial state. -/
def connectedState : SerialPortModule :=
  { isConnected := true, serialPort := some 0, readBuffer := []
    permissionPromise := none, readJobActive := true }

/-- The connection result resolved for `cp210x` at 115200 baud. -/
def cp210xResult : ConnectionResult :=
  { connected := true, deviceName := some "/dev/bus/usb/001/002"
    baudRate := some 115200, error := none }

/-- C1 counterexample: with no device attached, the Coordinator connect
rejects `NO_DEVICE`, and the awaiting facade `connect` propagates that
rejection as a raised error — it does not return a failure string. -/
theorem connect_failure_propagates_cx :
    settleConnect
        (SerialPortModule.connect emptyEnv SerialPortModule.initial none 115200 0).2 =
      some (.error { code := "NO_DEVICE", message := "No compatible USB device found" }) ∧
    SerialTransport.connect SerialTransport.initial
        (.error { code := "NO_DEVICE", message := "No compatible USB device found" }) =
      .error { code := "NO_DEVICE", message := "No compatible USB device found" } ∧
    (SerialTransport.connect SerialTransport.initial
        (.error { code := "NO_DEVICE", message := "No compatible USB device found" })).isOk
      = false :=
  ⟨rfl, rfl, rfl⟩

/-- C1 (amended): on a successful native connect the facade caches the
device name and baud rate and returns the human-readable status string;
on a native connect rejection the facade raises — the rejection
propagates unchanged instead of being converted to a failure string
(the failure-string branch is reachable only from a native resolution
with the connected flag off, which the Coordinator never produces). -/
theorem facade_connect_amended (self : SerialTransport) (r : ConnectionResult)
    (e : RNError) (h : r.connected = true) :
    SerialTransport.connect self (.ok r) =
      .ok ({ connected := true, deviceName := r.deviceName, baudRate := r.baudRate },
        connectedMessage r.deviceName r.baudRate) ∧
    SerialTransport.connect self (.error e) = .error e := by
  constructor
  · unfold SerialTransport.connect
    simp [h]
  · rfl

theorem facade_connect_amended_witness :
    cp210xResult.connected = true ∧
    (SerialTransport.connect SerialTransport.initial (.ok cp210xResult) =
      .ok ({ connected := true, deviceName := cp210xResult.deviceName
             baudRate := cp210xResult.baudRate },
        connectedMessage cp210xResult.deviceName cp210xResult.baudRate) ∧
     SerialTransport.connect SerialTransport.initial
        (.error { code := "OPEN_FAILED", message := "Failed to open device connection" }) =
      .error { code := "OPEN_FAILED", message := "Failed to open device connection" }) :=
  ⟨rfl,
   facade_connect_amended SerialTransport.initial cp210xResult
     { code := "OPEN_FAILED", message := "Failed to open device connection" } rfl⟩

/-- C2 counterexample: with a permission request already pending (stored
promise 1) and no session open, a second connect call (promise 2) is not
rejected — it returns with its own promise pending and overwrites the
stored pending promise with promise 2, orphaning promise 1. -/
theorem concurrent_connect_overwrites_cx :
    (SerialPortModule.connect ungrantedEnv pendingState none 115200 2).2 =
      Outcome.pending ∧
    (SerialPortModule.connect ungrantedEnv pendingState none 115200 2).1.permissionPromise =
      some 2 ∧
    pendingState.permissionPromise = some 1 :=
  ⟨rfl, rfl, rfl⟩

/-- C2 (amended): the module stores at most one pending permission promise
(a single field), but a connect call that reaches the permission-request
path never rejects on account of a pending request: whatever promise was
stored, the call returns pending and overwrites the stored promise with
its own, leaving the earlier promise never settled by the module. -/
theorem pending_permission_overwrite (env : UsbEnv) (self : SerialPortModule)
    (deviceName : Option String) (baudRate p : Nat) (d : USBDevice)
    (h1 : self.isConnected = false)
    (h2 : selectDevice env.deviceList deviceName = some d)
    (h3 : env.hasPermission d.deviceName = false) :
    SerialPortModule.connect env self deviceName baudRate p =
      ({ self with permissionPromise := some p }, Outcome.pending) := by
  simp [SerialPortModule.connect, h1, h2, h3]

theorem pending_permission_overwrite_witness :
    pendingState.isConnected = false ∧
    selectDevice ungrantedEnv.deviceList none = some cp210x ∧
    ungrantedEnv.hasPermission cp210x.deviceName = false ∧
    SerialPortModule.connect ungrantedEnv pendingState none 115200 2 =
      ({ pendingState with permissionPromise := some 2 }, Outcome.pending) :=
  ⟨rfl, rfl, rfl,
   pending_permission_overwrite ungrantedEnv pendingState none 115200 2 cp210x
     rfl rfl rfl⟩

/-- C4: device selection — an explicit device name selects a listed device
with exactly that name; with no name, the selected device is the first
listed device whose vendor id is one of CP210x (0x10C4), CH340 (0x1A86),
FTDI (0x0403), every earlier device failing the vendor filter; and
whenever no candidate exists — in particular when the device list is
empty — connect rejects `NO_DEVICE`. -/
theorem device_selection_spec (l : List USBDevice) (env : UsbEnv)
    (self : SerialPortModule) (n : String) (deviceName : Option String)
    (d : USBDevice) (baudRate p : Nat)
    (hnc : self.isConnected = false) :
    (selectDevice l (some n) = some d → d ∈ l ∧ d.deviceName = n) ∧
    (selectDevice l none = some d →
      ∃ l1 l2, l = l1 ++ d :: l2 ∧ knownVendor d.vendorId = true ∧
        ∀ x ∈ l1, knownVendor x.vendorId = false) ∧
    (selectDevice env.deviceList deviceName = none →
      SerialPortModule.connect env self deviceName baudRate p =
        (self, .rejected "NO_DEVICE" "No compatible USB device found")) ∧
    (env.deviceList = [] →
      SerialPortModule.connect env self deviceName baudRate p =
        (self, .rejected "NO_DEVICE" "No compatible USB device found")) := by
  refine ⟨?_, ?_, ?_, ?_⟩
  · intro h
    refine ⟨List.mem_of_find?_eq_some h, ?_⟩
    have hp := List.find?_some h
    exact eq_of_beq hp
  · intro h
    exact find?_split _ l d h
  · intro h
    simp [SerialPortModule.connect, hnc, h]
  · intro h
    cases hdn : deviceName <;>
      simp [SerialPortModule.connect, hnc, selectDevice, h, hdn]

theorem device_selection_spec_witness :
    SerialPortModule.initial.isConnected = false ∧
    ((selectDevice [cp210x] (some "/dev/bus/usb/001/002") = some cp210x →
        cp210x ∈ [cp210x] ∧ cp210x.deviceName = "/dev/bus/usb/001/002") ∧
     (selectDevice [cp210x] none = some cp210x →
        ∃ l1 l2, [cp210x] = l1 ++ cp210x :: l2 ∧ knownVendor cp210x.vendorId = true ∧
          ∀ x ∈ l1, knownVendor x.vendorId = false) ∧
     (selectDevice emptyEnv.deviceList none = none →
        SerialPortModule.connect emptyEnv SerialPortModule.initial none 115200 0 =
          (SerialPortModule.initial,
           .rejected "NO_DEVICE" "No compatible USB device found")) ∧
     (emptyEnv.deviceList = [] →
        SerialPortModule.connect emptyEnv SerialPortModule.initial none 115200 0 =
          (SerialPortModule.initial,
           .rejected "NO_DEVICE" "No compatible USB device found"))) :=
  ⟨rfl,
   device_selection_spec [cp210x] emptyEnv SerialPortModule.initial
     "/dev/bus/usb/001/002" none cp210x 115200 0 rfl⟩

/-- C6: a facade write with the cached flag off raises the not-connected
error; a Coordinator write in any not-yet-connected state rejects
`NOT_CONNECTED`; and in the state produced by any successful connect,
write never rejects `NOT_CONNECTED` — it resolves the accepted byte count
when the port accepts the transfer, rejecting `WRITE_ERROR` only on a
port-level failure. -/
theorem write_before_after_connect (env : UsbEnv) (t : SerialTransport)
    (nativeWrite : List Int → Except RNError Nat) (data : List Int)
    (st0 self nst : SerialPortModule) (deviceName : Option String)
    (baudRate p : Nat) (r : ConnectionResult)
    (hfac : t.connected = false)
    (h0 : st0.isConnected = false)
    (hcon : SerialPortModule.connect env self deviceName baudRate p =
      (nst, .resolvedConn r)) :
    SerialTransport.write t data nativeWrite =
      .error { code := "Error", message := "Not connected to any device" } ∧
    SerialPortModule.write env st0 data =
      (st0, .rejected "NOT_CONNECTED" "Device not connected") ∧
    ∀ env2 : UsbEnv, SerialPortModule.write env2 nst data =
      if env2.writeOk then (nst, .resolvedInt data.length)
      else (nst, .rejected "WRITE_ERROR" "Write failed") := by
  obtain ⟨hC, hP⟩ := connect_resolved_state env self nst deviceName baudRate p r hcon
  refine ⟨?_, ?_, ?_⟩
  · simp [SerialTransport.write, hfac]
  · simp [SerialPortModule.write, h0]
  · intro env2
    by_cases hw : env2.writeOk <;> simp [SerialPortModule.write, hC, hP, hw]

theorem write_before_after_connect_witness :
    SerialTransport.initial.connected = false ∧
    SerialPortModule.initial.isConnected = false ∧
    SerialPortModule.connect grantedEnv SerialPortModule.initial none 115200 0 =
      (connectedState, .resolvedConn cp210xResult) ∧
    SerialTransport.write SerialTransport.initial [1, 2, 3] (fun ds => .ok ds.length) =
      .error { code := "Error", message := "Not connected to any device" } ∧
    SerialPortModule.write grantedEnv SerialPortModule.initial [1, 2, 3] =
      (SerialPortModule.initial, .rejected "NOT_CONNECTED" "Device not connected") ∧
    SerialPortModule.write grantedEnv connectedState [1, 2, 3] =
      if grantedEnv.writeOk then (connectedState, .resolvedInt 3)
      else (connectedState, .rejected "WRITE_ERROR" "Write failed") :=
  have h := write_before_after_connect grantedEnv SerialTransport.initial
    (fun ds => .ok ds.length) [1, 2, 3] SerialPortModule.initial
    SerialPortModule.initial connectedState none 115200 0 cp210xResult rfl rfl rfl
  ⟨rfl, rfl, rfl, h.1, h.2.1, h.2.2 grantedEnv⟩
